import Mathlib

/-!
Verification development for the Eidos execution engine
(src/core/execution_engine.py, src/ai/workers.py, src/core/data_model.py).

The engine runs a directed graph of script-carrying nodes: it executes a
node's sandboxed script, asks an asynchronous AI oracle which outgoing
edges to follow, and forks one child path per chosen target.  The Python
code runs under a single Qt event loop: `run_flow` executes synchronously
until every branch has either terminated or paused on an outstanding
AI worker; afterwards, worker completions (and `stop_execution` calls)
are delivered as discrete events on the engine thread.  We embed the
engine as a state machine driven by an explicit event schedule: each
`deliver` event models one worker thread finishing (emitting
`result_ready`/`error_occurred` unless cancelled, then `finished`).

Ghost observation fields (`script_log`, `oracle_requests`, `terminated`,
`dialog_errors`) record, respectively, which node scripts were run, which
oracle requests were issued, each path's termination (as the sequence of
nodes it entered, paired with the reason), and the error dialogs shown.
They are append-only annotations of events the Python code prints or
performs at the corresponding program points and do not influence the
control flow.
-/

namespace Eidos

/-- Payload carried between nodes (`MultiModalData` in src/core/data_model.py).
Only the dataclass fields are modelled; the media path-resolution helpers are
not used by the execution engine's control flow. `structured_data` is an
association list standing for the Python dict. -/
structure MultiModalData where
  text : Option String := none
  structured_data : List (String × String) := []
  image_ref : Option String := none
  audio_ref : Option String := none
  video_ref : Option String := none
  generic_url : Option String := none
  deriving DecidableEq, Repr

/-- Outcome of running one node's `process_code` in the sandbox, as observed
by `_execute_step` (execution_engine.py lines 154-182): the script either
leaves a `MultiModalData`, a dict-free plain value (modelled by its string
form), or nothing in `_result`, or it raises an exception with a type name
and message. The script language itself is opaque (spec §1 non-goals), so a
node's script is embedded as a function from input payload to this outcome. -/
inductive ScriptResult where
  | retData (d : MultiModalData)
  | retStr (s : String)
  | retNone
  | raises (err_type err_msg : String)

/-- Node data (`NodeData` in src/core/data_model.py); `process` is the
sandboxed semantics of `process_code`. -/
structure NodeData where
  id : String
  label : String := "Node"
  node_type : String := "Default"
  transition_specs : String := ""
  custom_data : MultiModalData := {}
  process : MultiModalData → ScriptResult

/-- Edge data (`EdgeData` in src/core/data_model.py). -/
structure EdgeData where
  id : String := ""
  start_node_id : String
  end_node_id : String

/-- The diagram scene as the engine reads it: the node set and the edge set.
`edges_out` reproduces a NodeItem's `edges_out` list (edges leaving the node,
in edge-list order) resolved to their target nodes; edges whose `end_item`
is missing are skipped, as in execution_engine.py lines 199-206. -/
structure Scene where
  nodes : List NodeData
  edges : List EdgeData

def Scene.find_node (s : Scene) (nid : String) : Option NodeData :=
  s.nodes.find? (fun n => n.id == nid)

def Scene.edges_out (s : Scene) (nid : String) : List NodeData :=
  (s.edges.filter (fun e => e.start_node_id == nid)).filterMap
    (fun e => s.find_node e.end_node_id)

/-- Conversion of the script's raw `_result` into the node output payload
(execution_engine.py lines 168-182).  A raised exception of type `ty` with
message `msg` becomes the error-tagged payload whose structured data is
the single binding `("error", ty ++ ": " ++ msg)` (line 182). -/
def convert_result (r : ScriptResult) : MultiModalData :=
  match r with
  | .retData d => d
  | .retStr s => { text := some s }
  | .retNone => {}
  | .raises ty msg => { structured_data := [("error", ty ++ ": " ++ msg)] }

/-- Python `str.strip()`: remove leading and trailing whitespace. -/
def py_strip (s : String) : String :=
  ⟨((s.toList.dropWhile Char.isWhitespace).reverse.dropWhile Char.isWhitespace).reverse⟩

/-- Python `str.upper()` (the responses compared are ASCII). -/
def py_upper (s : String) : String :=
  ⟨s.toList.map Char.toUpper⟩

/-- Splitting a character list at a separator character; the empty list
yields one empty field, as Python's `"".split(',')` yields `[""]`. -/
def split_chars (sep : Char) : List Char → List (List Char)
  | [] => [[]]
  | c :: cs =>
    match split_chars sep cs with
    | [] => if c = sep then [[], [c]] else [[c]]
    | h :: t => if c = sep then [] :: h :: t else (c :: h) :: t

/-- Python `str.split(',')`. -/
def py_split_comma (s : String) : List String :=
  (split_chars ',' s.toList).map (fun cs => ⟨cs⟩)

/-- Response parsing and validation done by `AIWorker.run`
(src/ai/workers.py lines 61-87): strip the raw response; an empty response
or the word NONE (case-insensitively) selects nothing; otherwise split on
commas, strip the items, drop empties, and keep, without duplicates and in
order, exactly the items that are candidate ids. -/
def parse_ai_response (raw : String) (valid_ids : List String) : List String :=
  let t := py_strip raw
  if t == "" || py_upper t == "NONE" then []
  else
    let items := ((py_split_comma t).map py_strip).filter (fun i => i != "")
    items.foldl
      (fun acc item =>
        if valid_ids.contains item then
          if acc.contains item then acc else acc ++ [item]
        else acc) []

/-- The two signals an `AIWorker` can emit before `finished`
(src/ai/workers.py lines 9-10). -/
inductive WorkerSignal where
  | result_ready (ids : List String)
  | error_occurred (msg : String)
  deriving DecidableEq, Repr

/-- Outcome of the underlying chat-completion API call made by the worker:
either the raw response text, or an exception caught by one of the except
arms of `AIWorker.run` (lines 89-98). -/
inductive APIOutcome where
  | success (raw : String)
  | api_error (msg : String)
  deriving DecidableEq, Repr

/-- What `AIWorker.run` emits for a given API outcome when not cancelled:
on success, `result_ready` with the parsed and validated ids — response
content alone is never turned into `error_occurred`; on an API exception,
`error_occurred` with the message. -/
def ai_worker_run (api : APIOutcome) (valid_ids : List String) : WorkerSignal :=
  match api with
  | .success raw => .result_ready (parse_ai_response raw valid_ids)
  | .api_error msg => .error_occurred msg

/-- A worker tracked by the engine: the signal its `run` will emit if it is
not cancelled, and its `_is_cancelled` flag. Workers are identified by their
index in the engine's `workers` list. -/
structure AIWorker where
  outcome : WorkerSignal
  is_cancelled : Bool := false
  deriving DecidableEq, Repr

/-- A value of `paused_tasks`: the state tuple
`(current_node_item, node_output_data, visited, depth)` stored at
execution_engine.py line 226, plus the ghost `trail` (the sequence of nodes
this path has entered). -/
structure PausedTask where
  node : NodeData
  output : MultiModalData
  visited : List String
  depth : Nat
  trail : List String

/-- Ghost classification of why a path stopped, following the spec's
terminal-reason vocabulary; each constructor corresponds to one stopping
point printed by the engine ("Already Visited", "Max Depth Reached",
"is terminal" / "No valid next step chosen", "AI Task Error"). -/
inductive Reason where
  | completed
  | cycle
  | maxDepth
  | error
  deriving DecidableEq, Repr

/-- Immutable per-run context: the scene, the decision oracle (the API call
as a deterministic function of the requesting node, its output payload and
the candidate ids), and `MAX_EXECUTION_DEPTH`. -/
structure EngineCtx where
  scene : Scene
  oracle : String → MultiModalData → List String → APIOutcome
  max_depth : Nat

/-- The mutable fields of `ExecutionEngine`, plus ghost logs.
`paused_tasks` is the Python dict keyed by node id (insertion-ordered
association list); `active_ai_threads` holds the indices of workers whose
threads are still tracked; `workers` records every worker ever created. -/
structure EngineState where
  is_running : Bool := false
  stop_requested : Bool := false
  execution_paused : Bool := false
  paused_tasks : List (String × PausedTask) := []
  workers : List AIWorker := []
  active_ai_threads : List Nat := []
  script_log : List String := []
  oracle_requests : List (String × MultiModalData × List String) := []
  terminated : List (List String × Reason) := []
  dialog_errors : List (String × String) := []

/-- Python dict assignment `d[k] = v`: replace in place if the key exists,
else append. -/
def assoc_insert (l : List (String × PausedTask)) (k : String) (v : PausedTask) :
    List (String × PausedTask) :=
  match l with
  | [] => [(k, v)]
  | p :: ps => if p.1 == k then (k, v) :: ps else p :: assoc_insert ps k v

/-- Python dict membership / read. -/
def assoc_lookup (l : List (String × PausedTask)) (k : String) : Option PausedTask :=
  match l with
  | [] => none
  | p :: ps => if p.1 == k then some p.2 else assoc_lookup ps k

/-- Python `dict.pop(k)`: remove the entry with the key. -/
def assoc_erase (l : List (String × PausedTask)) (k : String) :
    List (String × PausedTask) :=
  match l with
  | [] => []
  | p :: ps => if p.1 == k then ps else p :: assoc_erase ps k

/-- `potential_next` dict keys (execution_engine.py lines 198-206): one key
per distinct target node id, in first-occurrence order. -/
def potential_next_ids (targets : List NodeData) : List String :=
  targets.foldl (fun acc n => if acc.contains n.id then acc else acc ++ [n.id]) []

/-- Cancellation sweep over the tracked threads: every worker in
`active_ai_threads` gets its `_is_cancelled` flag set (worker.cancel()). -/
def cancel_active_workers (st : EngineState) : List AIWorker :=
  (st.workers.enum).map
    (fun iw => if st.active_ai_threads.contains iw.1 then
      { iw.2 with is_cancelled := true } else iw.2)

/-- `_cleanup_threads` (lines 386-396): cancel every tracked worker and
forget the thread references. -/
def cleanup_threads (st : EngineState) : EngineState :=
  { st with workers := cancel_active_workers st, active_ai_threads := [] }

/-- `_finish_execution` (lines 375-384). -/
def finish_execution (st : EngineState) : EngineState :=
  if !st.is_running then st
  else
    cleanup_threads { st with is_running := false, stop_requested := false,
                              execution_paused := false, paused_tasks := [] }

/-- `_check_and_finish_execution` (lines 366-372). -/
def check_and_finish_execution (st : EngineState) : EngineState :=
  if st.is_running && !st.execution_paused && st.active_ai_threads.isEmpty
      && st.paused_tasks.isEmpty then
    finish_execution st
  else st

/-- `_show_error_dialog` (lines 399-408), as a ghost log append. -/
def show_error_dialog (st : EngineState) (title msg : String) : EngineState :=
  { st with dialog_errors := st.dialog_errors ++ [(title, msg)] }

/-- `_execute_step` (lines 120-249) for one node: guard on running/stop,
cycle check, depth check, mark visited, run the script (converting the raw
result, substituting the error-tagged payload if it raises), re-check stop,
then either terminate (no outgoing edges) or create a worker for the AI
decision and pause this path.  The recursion of the Python code happens
only through `handle_ai_result`, so this function is not recursive. -/
def execute_step (ctx : EngineCtx) (st : EngineState) (node : NodeData)
    (input_data : MultiModalData) (visited : List String) (depth : Nat)
    (trail : List String) : EngineState :=
  if !st.is_running || st.stop_requested then check_and_finish_execution st
  else if visited.contains node.id then
    check_and_finish_execution
      { st with terminated := st.terminated ++ [(trail ++ [node.id], Reason.cycle)] }
  else if depth > ctx.max_depth then
    check_and_finish_execution
      { st with terminated := st.terminated ++ [(trail ++ [node.id], Reason.maxDepth)] }
  else
    let visited' := visited ++ [node.id]
    let trail' := trail ++ [node.id]
    let node_output_data := convert_result (node.process input_data)
    let st1 := { st with script_log := st.script_log ++ [node.id] }
    if st1.stop_requested then finish_execution st1
    else
      let targets := ctx.scene.edges_out node.id
      if targets.isEmpty then
        check_and_finish_execution
          { st1 with terminated := st1.terminated ++ [(trail', Reason.completed)] }
      else
        let cands := potential_next_ids targets
        let w : AIWorker := { outcome := ai_worker_run (ctx.oracle node.id node_output_data cands) cands }
        { st1 with
          execution_paused := true,
          paused_tasks := assoc_insert st1.paused_tasks node.id
            { node := node, output := node_output_data, visited := visited',
              depth := depth, trail := trail' },
          workers := st1.workers ++ [w],
          active_ai_threads := st1.active_ai_threads ++ [st1.workers.length],
          oracle_requests := st1.oracle_requests ++ [(node.id, node_output_data, cands)] }

/-- The reverse lookup of `_handle_ai_result`/`_handle_ai_error`
(lines 267-275 and 328-333): scan `paused_tasks` in insertion order and take
the first task id for which `active_ai_threads.get(worker)` is truthy — a
condition that does not depend on the task id, so this is the first paused
task whenever the sender is an active worker, regardless of which task the
worker belongs to. -/
def find_originating (st : EngineState) (wid : Nat) : Option String :=
  if st.active_ai_threads.contains wid then
    st.paused_tasks.head?.map (fun q => q.1)
  else none

/-- `_handle_ai_result` (lines 252-319). -/
def handle_ai_result (ctx : EngineCtx) (st : EngineState) (wid : Nat)
    (chosen_node_ids : List String) : EngineState :=
  if !st.is_running then st
  else
    match find_originating st wid with
    | none => st
    | some k =>
      match assoc_lookup st.paused_tasks k with
      | none => st
      | some p =>
        let paused' := assoc_erase st.paused_tasks k
        let st1 := { st with paused_tasks := paused',
                             execution_paused := !paused'.isEmpty }
        if st1.stop_requested then check_and_finish_execution st1
        else
          let nexts := (ctx.scene.edges_out p.node.id).filter
            (fun n => chosen_node_ids.contains n.id)
          if nexts.isEmpty then
            check_and_finish_execution
              { st1 with terminated := st1.terminated ++ [(p.trail, Reason.completed)] }
          else
            check_and_finish_execution
              (nexts.foldl
                (fun s n => execute_step ctx s n p.output p.visited (p.depth + 1) p.trail)
                st1)

/-- `_handle_ai_error` (lines 322-345). -/
def handle_ai_error (_ctx : EngineCtx) (st : EngineState) (wid : Nat)
    (error_msg : String) : EngineState :=
  if !st.is_running then st
  else
    match find_originating st wid with
    | some k =>
      match assoc_lookup st.paused_tasks k with
      | some p =>
        let paused' := assoc_erase st.paused_tasks k
        check_and_finish_execution
          (show_error_dialog
            { st with paused_tasks := paused',
                      execution_paused := !paused'.isEmpty,
                      terminated := st.terminated ++ [(p.trail, Reason.error)] }
            "AI Error" error_msg)
      | none => check_and_finish_execution st
    | none => check_and_finish_execution st

/-- `_ai_task_finished` (lines 349-363). -/
def ai_task_finished (st : EngineState) (wid : Nat) : EngineState :=
  check_and_finish_execution
    { st with active_ai_threads := st.active_ai_threads.erase wid }

/-- One worker thread completing: if cancellation won the race, the worker
emits neither signal (workers.py line 104); otherwise its outcome is
delivered to the matching engine slot. The `finished` signal always follows
(line 110), triggering `_ai_task_finished`. -/
def deliver_worker (ctx : EngineCtx) (st : EngineState) (wid : Nat) : EngineState :=
  match st.workers[wid]? with
  | none => st
  | some w =>
    let st1 :=
      if w.is_cancelled then st
      else
        match w.outcome with
        | .result_ready ids => handle_ai_result ctx st wid ids
        | .error_occurred msg => handle_ai_error ctx st wid msg
    ai_task_finished st1 wid

/-- `stop_execution` (lines 100-118): mark the stop request, cancel every
tracked worker, and finish immediately when nothing is paused. -/
def stop_execution (st : EngineState) : EngineState :=
  if !st.is_running then st
  else
    let st1 := { st with stop_requested := true, workers := cancel_active_workers st }
    if !st1.execution_paused then finish_execution st1 else st1

/-- `run_flow` (lines 62-98): reject when a run is in progress, reset the
state, execute the start node, and finish immediately if nothing paused. -/
def run_flow (ctx : EngineCtx) (st : EngineState) (start : Option NodeData) :
    EngineState :=
  if st.is_running then
    show_error_dialog st "Execution Error" "An execution flow is already running."
  else
    match start with
    | none => st
    | some n =>
      let st1 := cleanup_threads
        { st with is_running := true, stop_requested := false,
                  execution_paused := false, paused_tasks := [] }
      let st2 := execute_step ctx st1 n n.custom_data [] 0 []
      if st2.is_running && !st2.execution_paused then
        check_and_finish_execution st2
      else st2

/-- Events processed by the engine's thread after the synchronous phase of
`run_flow`: a worker thread completing, or the user requesting a stop. The
schedule (the order of these events) is chosen by the environment. -/
inductive EngineEvent where
  | deliver (wid : Nat)
  | stop

def step_event (ctx : EngineCtx) (st : EngineState) : EngineEvent → EngineState
  | .deliver wid => deliver_worker ctx st wid
  | .stop => stop_execution st

/-- A whole run: `run_flow` from the idle state, then the event schedule. -/
def run_system (ctx : EngineCtx) (start : Option NodeData)
    (events : List EngineEvent) : EngineState :=
  events.foldl (step_event ctx) (run_flow ctx {} start)

/-! ### Concrete fixtures -/

/-- A node whose script assigns nothing to `_result` (its output is the
empty payload). -/
def mk_node (nid : String) : NodeData :=
  { id := nid, label := nid, process := fun _ => ScriptResult.retNone }

/-- Fan-out graph: A forks to B and C; B leads on to D, C leads on to E;
D and E are terminal. -/
def scene_fanout : Scene :=
  { nodes := [mk_node "A", mk_node "B", mk_node "C", mk_node "D", mk_node "E"],
    edges := [{ id := "eAB", start_node_id := "A", end_node_id := "B" },
              { id := "eAC", start_node_id := "A", end_node_id := "C" },
              { id := "eBD", start_node_id := "B", end_node_id := "D" },
              { id := "eCE", start_node_id := "C", end_node_id := "E" }] }

/-- Deterministic oracle for `scene_fanout`: both children at A, D at B,
E at C. -/
def oracle_fanout : String → MultiModalData → List String → APIOutcome :=
  fun nid _ _ =>
    if nid == "A" then .success "B,C"
    else if nid == "B" then .success "D"
    else if nid == "C" then .success "E"
    else .success "NONE"

def ctx_fanout : EngineCtx :=
  { scene := scene_fanout, oracle := oracle_fanout, max_depth := 25 }

/-- Same graph, but the oracle call issued at C fails with a connection
error while A's and B's calls succeed. -/
def oracle_fanout_err : String → MultiModalData → List String → APIOutcome :=
  fun nid _ _ =>
    if nid == "A" then .success "B,C"
    else if nid == "B" then .success "D"
    else if nid == "C" then .api_error "OpenAI API Connection Error: boom"
    else .success "NONE"

def ctx_fanout_err : EngineCtx :=
  { scene := scene_fanout, oracle := oracle_fanout_err, max_depth := 25 }

/-- Worker completions delivered in creation order: A's worker (0), then
B's (1), then C's (2). -/
def ev_creation_order : List EngineEvent := [.deliver 0, .deliver 1, .deliver 2]

/-- C's worker (2) completes before B's (1). -/
def ev_reversed : List EngineEvent := [.deliver 0, .deliver 2, .deliver 1]

/-- Two-node graph A → B used for the cancellation scenario. -/
def scene_pause : Scene :=
  { nodes := [mk_node "A", mk_node "B"],
    edges := [{ id := "eAB", start_node_id := "A", end_node_id := "B" }] }

def ctx_pause : EngineCtx :=
  { scene := scene_pause, oracle := fun _ _ _ => .success "B", max_depth := 25 }

/-- A with two terminal children B and C, used for the fork-isolation
witness. -/
def scene_pair : Scene :=
  { nodes := [mk_node "A", mk_node "B", mk_node "C"],
    edges := [{ id := "eAB", start_node_id := "A", end_node_id := "B" },
              { id := "eAC", start_node_id := "A", end_node_id := "C" }] }

def ctx_pair : EngineCtx :=
  { scene := scene_pair, oracle := fun _ _ _ => .success "NONE", max_depth := 25 }

/-- Node A whose script raises, in front of a terminal node B. -/
def node_raise : NodeData :=
  { id := "A", label := "A", process := fun _ => ScriptResult.raises "ValueError" "boom" }

def scene_raise : Scene :=
  { nodes := [node_raise, mk_node "B"],
    edges := [{ id := "eAB", start_node_id := "A", end_node_id := "B" }] }

def ctx_raise : EngineCtx :=
  { scene := scene_raise, oracle := fun _ _ _ => .success "NONE", max_depth := 25 }

/-! ### Field-preservation lemmas for the completion checks -/

@[simp] lemma finish_execution_terminated (st : EngineState) :
    (finish_execution st).terminated = st.terminated := by
  unfold finish_execution cleanup_threads; split <;> rfl

@[simp] lemma finish_execution_script_log (st : EngineState) :
    (finish_execution st).script_log = st.script_log := by
  unfold finish_execution cleanup_threads; split <;> rfl

@[simp] lemma finish_execution_oracle_requests (st : EngineState) :
    (finish_execution st).oracle_requests = st.oracle_requests := by
  unfold finish_execution cleanup_threads; split <;> rfl

@[simp] lemma finish_execution_dialog_errors (st : EngineState) :
    (finish_execution st).dialog_errors = st.dialog_errors := by
  unfold finish_execution cleanup_threads; split <;> rfl

@[simp] lemma check_and_finish_terminated (st : EngineState) :
    (check_and_finish_execution st).terminated = st.terminated := by
  unfold check_and_finish_execution; split
  · exact finish_execution_terminated st
  · rfl

@[simp] lemma check_and_finish_script_log (st : EngineState) :
    (check_and_finish_execution st).script_log = st.script_log := by
  unfold check_and_finish_execution; split
  · exact finish_execution_script_log st
  · rfl

@[simp] lemma check_and_finish_oracle_requests (st : EngineState) :
    (check_and_finish_execution st).oracle_requests = st.oracle_requests := by
  unfold check_and_finish_execution; split
  · exact finish_execution_oracle_requests st
  · rfl

@[simp] lemma check_and_finish_dialog_errors (st : EngineState) :
    (check_and_finish_execution st).dialog_errors = st.dialog_errors := by
  unfold check_and_finish_execution; split
  · exact finish_execution_dialog_errors st
  · rfl

lemma check_and_finish_paused (st : EngineState) :
    (check_and_finish_execution st).paused_tasks = st.paused_tasks := by
  unfold check_and_finish_execution
  split
  case isTrue h =>
    simp only [Bool.and_eq_true, List.isEmpty_iff] at h
    unfold finish_execution cleanup_threads
    rw [if_neg (by simp [h.1.1.1])]
    simp [h.2]
  case isFalse h => rfl

/-- When some AI thread is still tracked, the completion check is a no-op. -/
lemma check_and_finish_of_active_ne (st : EngineState)
    (h : st.active_ai_threads ≠ []) :
    check_and_finish_execution st = st := by
  unfold check_and_finish_execution
  split
  case isTrue hc =>
    simp only [Bool.and_eq_true, List.isEmpty_iff] at hc
    exact absurd hc.1.2 h
  case isFalse hc => rfl

lemma assoc_lookup_insert (l : List (String × PausedTask)) (k : String)
    (v : PausedTask) :
    assoc_lookup (assoc_insert l k v) k = some v := by
  induction l with
  | nil => simp [assoc_insert, assoc_lookup]
  | cons p ps ih =>
    unfold assoc_insert
    split
    case isTrue h => simp [assoc_lookup]
    case isFalse h => simp [assoc_lookup, h, ih]

/-! ### C10 — run_flow is rejected while a run is in progress -/

/-- C10: calling `run_flow` while `is_running` is set reports an error
dialog and leaves every other engine field (running flag, stop flag,
paused tasks, workers, threads, and all logs) unchanged: the result state
differs from the input state only by the appended error dialog, so no
script runs and no oracle request is issued. -/
theorem c10_run_flow_rejected_while_running (ctx : EngineCtx)
    (st : EngineState) (start : Option NodeData)
    (h : st.is_running = true) :
    run_flow ctx st start
      = { st with dialog_errors := st.dialog_errors
            ++ [("Execution Error", "An execution flow is already running.")] } := by
  unfold run_flow show_error_dialog
  rw [if_pos h]

theorem c10_run_flow_rejected_while_running_witness :
    run_flow ctx_pair { is_running := true } none
      = { is_running := true,
          dialog_errors :=
            [("Execution Error", "An execution flow is already running.")] } :=
  c10_run_flow_rejected_while_running ctx_pair { is_running := true } none rfl

/-! ### C5 — oracle response filtering is never fatal -/

lemma parse_validate_mem (valid_ids : List String) :
    ∀ (items acc : List String),
      (∀ y ∈ acc, valid_ids.contains y = true) →
      ∀ x ∈ items.foldl
        (fun acc item =>
          if valid_ids.contains item then
            if acc.contains item then acc else acc ++ [item]
          else acc) acc,
      valid_ids.contains x = true := by
  intro items
  induction items with
  | nil => intro acc hacc x hx; exact hacc x hx
  | cons i is ih =>
    intro acc hacc x hx
    refine ih _ ?_ x hx
    intro y hy
    simp only at hy
    by_cases hvi : valid_ids.contains i = true
    · rw [if_pos hvi] at hy
      by_cases hai : acc.contains i = true
      · rw [if_pos hai] at hy; exact hacc y hy
      · rw [if_neg hai] at hy
        rcases List.mem_append.mp hy with hmem | hmem
        · exact hacc y hmem
        · rw [List.mem_singleton.mp hmem]; exact hvi
    · rw [if_neg hvi] at hy; exact hacc y hy

/-- C5: the worker never turns response content into a failure. On any raw
API success the emitted signal is `result_ready` with the parsed id list
(never `error_occurred`, so "zero valid ids remaining" is reported as an
empty — terminal — selection); every id the parse returns belongs to the
candidate set, so ids outside it are dropped; and an empty response or the
word NONE (any capitalisation) selects nothing. -/
theorem c5_response_filtering_never_fatal (raw : String) (valid_ids : List String) :
    ai_worker_run (APIOutcome.success raw) valid_ids
      = WorkerSignal.result_ready (parse_ai_response raw valid_ids) ∧
    (∀ x ∈ parse_ai_response raw valid_ids, valid_ids.contains x = true) ∧
    ((py_strip raw == "" || py_upper (py_strip raw) == "NONE") = true →
      parse_ai_response raw valid_ids = []) := by
  refine ⟨rfl, ?_, ?_⟩
  · intro x hx
    unfold parse_ai_response at hx
    simp only at hx
    split at hx
    · simp at hx
    · exact parse_validate_mem valid_ids _ [] (by intro y hy; simp at hy) x hx
  · intro h
    unfold parse_ai_response
    simp [h]

theorem c5_response_filtering_never_fatal_witness :
    ai_worker_run (APIOutcome.success " B , Q ,B, none ") ["B", "C"]
      = WorkerSignal.result_ready ["B"] ∧
    ["B", "C"].contains "B" = true ∧
    parse_ai_response "nOnE" ["B", "C"] = [] := by
  have h1 := c5_response_filtering_never_fatal " B , Q ,B, none " ["B", "C"]
  have h2 := c5_response_filtering_never_fatal "nOnE" ["B", "C"]
  exact ⟨h1.1.trans (by decide), h1.2.1 "B" (by decide), h2.2.2 (by decide)⟩

/-! ### C2 — a raising script becomes error-tagged data, not a path abort -/

/-- C2: when the node's script raises (`ScriptResult.raises ty msg`) on a
node that passes the cycle and depth guards and has outgoing edges, the
step neither terminates the path nor the run: the run stays running, no
terminal reason is recorded, the decision phase is still entered — an
oracle request is issued whose output summary is exactly the error-tagged
payload `("error", ty ++ ": " ++ msg)` — and the path is parked in
`paused_tasks` carrying that error-tagged payload as the node's output. -/
theorem c2_script_failure_is_data
    (ctx : EngineCtx) (st : EngineState) (node : NodeData)
    (input : MultiModalData) (visited : List String) (depth : Nat)
    (trail : List String) (ty msg : String)
    (hrun : st.is_running = true) (hstop : st.stop_requested = false)
    (hvis : visited.contains node.id = false)
    (hdepth : ¬ depth > ctx.max_depth)
    (hraise : node.process input = ScriptResult.raises ty msg)
    (hedges : (ctx.scene.edges_out node.id).isEmpty = false) :
    (execute_step ctx st node input visited depth trail).is_running = true ∧
    (execute_step ctx st node input visited depth trail).terminated
      = st.terminated ∧
    (execute_step ctx st node input visited depth trail).oracle_requests
      = st.oracle_requests ++
        [(node.id, { structured_data := [("error", ty ++ ": " ++ msg)] },
          potential_next_ids (ctx.scene.edges_out node.id))] ∧
    assoc_lookup (execute_step ctx st node input visited depth trail).paused_tasks
        node.id
      = some { node := node,
               output := { structured_data := [("error", ty ++ ": " ++ msg)] },
               visited := visited ++ [node.id], depth := depth,
               trail := trail ++ [node.id] } := by
  have hvis' : ¬ node.id ∈ visited := by simpa using hvis
  unfold execute_step
  simp [hrun, hstop, hvis', hdepth, hraise, hedges, convert_result,
        assoc_lookup_insert]

theorem c2_script_failure_is_data_witness :
    (execute_step ctx_raise { is_running := true } node_raise {} [] 0 []).is_running
      = true ∧
    (execute_step ctx_raise { is_running := true } node_raise {} [] 0 []).terminated
      = [] ∧
    (execute_step ctx_raise { is_running := true } node_raise {} [] 0 []).oracle_requests
      = [("A", { structured_data := [("error", "ValueError: boom")] }, ["B"])] ∧
    assoc_lookup
        (execute_step ctx_raise { is_running := true } node_raise {} [] 0 []).paused_tasks
        "A"
      = some { node := node_raise,
               output := { structured_data := [("error", "ValueError: boom")] },
               visited := ["A"], depth := 0, trail := ["A"] } := by
  have h := c2_script_failure_is_data ctx_raise { is_running := true } node_raise
    {} [] 0 [] "ValueError" "boom" rfl rfl (by decide) (by decide) rfl (by decide)
  refine ⟨h.1, h.2.1, h.2.2.1.trans (by decide), ?_⟩
  have h4 := h.2.2.2
  simpa using h4

/-! ### C3 — cycle guard before depth guard, both before any work -/

/-- C3: on entering a node, if it is already in this path's visited set the
path records terminal reason Cycle — regardless of the depth, so the cycle
check precedes the depth check — and neither the script log nor the oracle
request log grows (no script execution, no oracle call); otherwise, if the
depth exceeds `max_depth`, the path records terminal reason MaxDepth,
again with no script execution and no oracle call. -/
theorem c3_cycle_before_depth
    (ctx : EngineCtx) (st : EngineState) (node : NodeData)
    (input : MultiModalData) (visited : List String) (depth : Nat)
    (trail : List String)
    (hrun : st.is_running = true) (hstop : st.stop_requested = false) :
    (visited.contains node.id = true →
      (execute_step ctx st node input visited depth trail).terminated
        = st.terminated ++ [(trail ++ [node.id], Reason.cycle)] ∧
      (execute_step ctx st node input visited depth trail).script_log
        = st.script_log ∧
      (execute_step ctx st node input visited depth trail).oracle_requests
        = st.oracle_requests) ∧
    (visited.contains node.id = false → depth > ctx.max_depth →
      (execute_step ctx st node input visited depth trail).terminated
        = st.terminated ++ [(trail ++ [node.id], Reason.maxDepth)] ∧
      (execute_step ctx st node input visited depth trail).script_log
        = st.script_log ∧
      (execute_step ctx st node input visited depth trail).oracle_requests
        = st.oracle_requests) := by
  constructor
  · intro hvis
    have hvis' : node.id ∈ visited := by simpa using hvis
    unfold execute_step
    simp [hrun, hstop, hvis']
  · intro hvis hdepth
    have hvis' : ¬ node.id ∈ visited := by simpa using hvis
    unfold execute_step
    simp [hrun, hstop, hvis', hdepth]

theorem c3_cycle_before_depth_witness :
    ((execute_step ctx_pair { is_running := true } (mk_node "A") {} ["A"] 30 []).terminated
        = [(["A"], Reason.cycle)] ∧
      (execute_step ctx_pair { is_running := true } (mk_node "A") {} ["A"] 30 []).script_log
        = [] ∧
      (execute_step ctx_pair { is_running := true } (mk_node "A") {} ["A"] 30 []).oracle_requests
        = []) ∧
    ((execute_step ctx_pair { is_running := true } (mk_node "A") {} [] 26 []).terminated
        = [(["A"], Reason.maxDepth)] ∧
      (execute_step ctx_pair { is_running := true } (mk_node "A") {} [] 26 []).script_log
        = [] ∧
      (execute_step ctx_pair { is_running := true } (mk_node "A") {} [] 26 []).oracle_requests
        = []) := by
  have h1 := (c3_cycle_before_depth ctx_pair { is_running := true } (mk_node "A")
    {} ["A"] 30 [] rfl rfl).1 (by decide)
  have h2 := (c3_cycle_before_depth ctx_pair { is_running := true } (mk_node "A")
    {} [] 26 [] rfl rfl).2 (by decide) (by decide)
  exact ⟨h1, h2⟩

/-! ### C4 — a node without outgoing edges completes without the oracle -/

/-- C4: executing a node with zero outgoing edges yields exactly one
terminal record, with reason Completed, immediately after the script step
(the script log grows by exactly this node); no oracle request is issued
and no decision task is registered (`paused_tasks` is unchanged). -/
theorem c4_terminal_node_skips_oracle
    (ctx : EngineCtx) (st : EngineState) (node : NodeData)
    (input : MultiModalData) (visited : List String) (depth : Nat)
    (trail : List String)
    (hrun : st.is_running = true) (hstop : st.stop_requested = false)
    (hvis : visited.contains node.id = false)
    (hdepth : ¬ depth > ctx.max_depth)
    (hedges : (ctx.scene.edges_out node.id).isEmpty = true) :
    (execute_step ctx st node input visited depth trail).terminated
      = st.terminated ++ [(trail ++ [node.id], Reason.completed)] ∧
    (execute_step ctx st node input visited depth trail).oracle_requests
      = st.oracle_requests ∧
    (execute_step ctx st node input visited depth trail).script_log
      = st.script_log ++ [node.id] ∧
    (execute_step ctx st node input visited depth trail).paused_tasks
      = st.paused_tasks := by
  have hvis' : ¬ node.id ∈ visited := by simpa using hvis
  unfold execute_step
  simp [hrun, hstop, hvis', hdepth, hedges, check_and_finish_paused]

theorem c4_terminal_node_skips_oracle_witness :
    (execute_step ctx_fanout { is_running := true } (mk_node "D") {} ["A", "B"] 2 ["A", "B"]).terminated
      = [(["A", "B", "D"], Reason.completed)] ∧
    (execute_step ctx_fanout { is_running := true } (mk_node "D") {} ["A", "B"] 2 ["A", "B"]).oracle_requests
      = [] ∧
    (execute_step ctx_fanout { is_running := true } (mk_node "D") {} ["A", "B"] 2 ["A", "B"]).script_log
      = ["D"] ∧
    (execute_step ctx_fanout { is_running := true } (mk_node "D") {} ["A", "B"] 2 ["A", "B"]).paused_tasks
      = [] := by
  have h := c4_terminal_node_skips_oracle ctx_fanout { is_running := true }
    (mk_node "D") {} ["A", "B"] 2 ["A", "B"] rfl rfl (by decide) (by decide) (by decide)
  exact ⟨h.1, h.2.1, h.2.2.1, h.2.2.2⟩

/-! ### C6 — forking: every child gets the parent's snapshot -/

/-- The terminal records one `execute_step` call appends, as a pure
function of the step's arguments (no dependence on the rest of the engine
state). -/
def step_terminal_note (ctx : EngineCtx) (node : NodeData)
    (visited : List String) (depth : Nat) (trail : List String) :
    List (List String × Reason) :=
  if visited.contains node.id then [(trail ++ [node.id], Reason.cycle)]
  else if depth > ctx.max_depth then [(trail ++ [node.id], Reason.maxDepth)]
  else if (ctx.scene.edges_out node.id).isEmpty then
    [(trail ++ [node.id], Reason.completed)]
  else []

/-- The oracle requests one `execute_step` call appends, again a pure
function of the step's arguments; when the step reaches the decision phase
the single request carries this step's input-derived output payload. -/
def step_oracle_note (ctx : EngineCtx) (node : NodeData)
    (input : MultiModalData) (visited : List String) (depth : Nat) :
    List (String × MultiModalData × List String) :=
  if visited.contains node.id then []
  else if depth > ctx.max_depth then []
  else if (ctx.scene.edges_out node.id).isEmpty then []
  else [(node.id, convert_result (node.process input),
         potential_next_ids (ctx.scene.edges_out node.id))]

/-- While some AI thread remains tracked (as is the case for the sender's
own thread during `_handle_ai_result`), a step cannot trigger
`_finish_execution`, and its effect decomposes by branch. -/
lemma execute_step_eq_of_active_ne (ctx : EngineCtx) (st : EngineState)
    (node : NodeData) (input : MultiModalData) (visited : List String)
    (depth : Nat) (trail : List String)
    (hrun : st.is_running = true) (hstop : st.stop_requested = false)
    (hact : st.active_ai_threads ≠ []) :
    execute_step ctx st node input visited depth trail =
      if visited.contains node.id then
        { st with terminated := st.terminated ++ [(trail ++ [node.id], Reason.cycle)] }
      else if depth > ctx.max_depth then
        { st with terminated := st.terminated ++ [(trail ++ [node.id], Reason.maxDepth)] }
      else if (ctx.scene.edges_out node.id).isEmpty then
        { st with script_log := st.script_log ++ [node.id],
                  terminated := st.terminated ++ [(trail ++ [node.id], Reason.completed)] }
      else
        { st with
          execution_paused := true,
          paused_tasks := assoc_insert st.paused_tasks node.id
            { node := node, output := convert_result (node.process input),
              visited := visited ++ [node.id], depth := depth,
              trail := trail ++ [node.id] },
          workers := st.workers ++
            [{ outcome := ai_worker_run
                (ctx.oracle node.id (convert_result (node.process input))
                  (potential_next_ids (ctx.scene.edges_out node.id)))
                (potential_next_ids (ctx.scene.edges_out node.id)) }],
          active_ai_threads := st.active_ai_threads ++ [st.workers.length],
          script_log := st.script_log ++ [node.id],
          oracle_requests := st.oracle_requests ++
            [(node.id, convert_result (node.process input),
              potential_next_ids (ctx.scene.edges_out node.id))] } := by
  unfold execute_step
  simp only [hrun, hstop, Bool.not_true, Bool.false_or, Bool.false_eq_true, if_false]
  split_ifs <;> first
    | rfl
    | exact check_and_finish_of_active_ne _ hact

/-- The three invariants a step preserves while a thread stays tracked,
plus the step's observable deltas. -/
lemma execute_step_notes (ctx : EngineCtx) (st : EngineState)
    (node : NodeData) (input : MultiModalData) (visited : List String)
    (depth : Nat) (trail : List String)
    (hrun : st.is_running = true) (hstop : st.stop_requested = false)
    (hact : st.active_ai_threads ≠ []) :
    (execute_step ctx st node input visited depth trail).is_running = true ∧
    (execute_step ctx st node input visited depth trail).stop_requested = false ∧
    (execute_step ctx st node input visited depth trail).active_ai_threads ≠ [] ∧
    (execute_step ctx st node input visited depth trail).terminated
      = st.terminated ++ step_terminal_note ctx node visited depth trail ∧
    (execute_step ctx st node input visited depth trail).oracle_requests
      = st.oracle_requests ++ step_oracle_note ctx node input visited depth := by
  rw [execute_step_eq_of_active_ne ctx st node input visited depth trail hrun hstop hact]
  unfold step_terminal_note step_oracle_note
  split_ifs <;> simp [hrun, hstop, hact]

/-- Folding `execute_step` over a list of children, each from the same
parent snapshot (output payload, visited set, depth + 1, trail): the
terminal records and oracle requests are the concatenation of each child's
own pure note — every child is evaluated against the parent's visited set
and payload, independent of its siblings. -/
lemma fork_fold_notes (ctx : EngineCtx) (out : MultiModalData)
    (vis : List String) (d : Nat) (tr : List String) :
    ∀ (cs : List NodeData) (st : EngineState),
      st.is_running = true → st.stop_requested = false →
      st.active_ai_threads ≠ [] →
      (cs.foldl (fun s n => execute_step ctx s n out vis (d + 1) tr) st).terminated
        = st.terminated
          ++ (cs.map (fun c => step_terminal_note ctx c vis (d + 1) tr)).flatten ∧
      (cs.foldl (fun s n => execute_step ctx s n out vis (d + 1) tr) st).oracle_requests
        = st.oracle_requests
          ++ (cs.map (fun c => step_oracle_note ctx c out vis (d + 1))).flatten := by
  intro cs
  induction cs with
  | nil => intro st _ _ _; simp
  | cons c cs ih =>
    intro st hrun hstop hact
    have h := execute_step_notes ctx st c out vis (d + 1) tr hrun hstop hact
    have hrec := ih (execute_step ctx st c out vis (d + 1) tr) h.1 h.2.1 h.2.2.1
    constructor
    · calc (List.foldl (fun s n => execute_step ctx s n out vis (d + 1) tr) st (c :: cs)).terminated
          = (List.foldl (fun s n => execute_step ctx s n out vis (d + 1) tr)
              (execute_step ctx st c out vis (d + 1) tr) cs).terminated := rfl
        _ = (execute_step ctx st c out vis (d + 1) tr).terminated
              ++ (cs.map (fun x => step_terminal_note ctx x vis (d + 1) tr)).flatten := hrec.1
        _ = st.terminated ++ ((c :: cs).map (fun x => step_terminal_note ctx x vis (d + 1) tr)).flatten := by
              rw [h.2.2.2.1]; simp
    · calc (List.foldl (fun s n => execute_step ctx s n out vis (d + 1) tr) st (c :: cs)).oracle_requests
          = (List.foldl (fun s n => execute_step ctx s n out vis (d + 1) tr)
              (execute_step ctx st c out vis (d + 1) tr) cs).oracle_requests := rfl
        _ = (execute_step ctx st c out vis (d + 1) tr).oracle_requests
              ++ (cs.map (fun x => step_oracle_note ctx x out vis (d + 1))).flatten := hrec.2
        _ = st.oracle_requests ++ ((c :: cs).map (fun x => step_oracle_note ctx x out vis (d + 1))).flatten := by
              rw [h.2.2.2.2]; simp

/-- C6: when an oracle result is handled for the paused task at the head of
`paused_tasks` (state tuple `p`) and at least one chosen id matches an
outgoing edge, every forked child is executed from the parent's snapshot:
the terminal records and oracle requests appended by the whole fork are the
concatenation, over exactly the chosen targets, of per-child notes taken at
depth `p.depth + 1`, with the parent's visited set `p.visited` and the
parent's output payload `p.output` — the same snapshot for every sibling,
so one sibling visiting a node never prevents another sibling from visiting
it. -/
theorem c6_fork_passes_parent_snapshot (ctx : EngineCtx) (st : EngineState)
    (wid : Nat) (chosen : List String) (k : String) (p : PausedTask)
    (rest : List (String × PausedTask))
    (hrun : st.is_running = true) (hstop : st.stop_requested = false)
    (hact : st.active_ai_threads.contains wid = true)
    (hp : st.paused_tasks = (k, p) :: rest)
    (hnext : ((ctx.scene.edges_out p.node.id).filter
        (fun n => chosen.contains n.id)).isEmpty = false) :
    (handle_ai_result ctx st wid chosen).terminated
      = st.terminated
        ++ (((ctx.scene.edges_out p.node.id).filter (fun n => chosen.contains n.id)).map
              (fun c => step_terminal_note ctx c p.visited (p.depth + 1) p.trail)).flatten ∧
    (handle_ai_result ctx st wid chosen).oracle_requests
      = st.oracle_requests
        ++ (((ctx.scene.edges_out p.node.id).filter (fun n => chosen.contains n.id)).map
              (fun c => step_oracle_note ctx c p.output p.visited (p.depth + 1))).flatten := by
  have hane : st.active_ai_threads ≠ [] := by
    intro h0
    rw [h0] at hact
    simp at hact
  have hfold := fork_fold_notes ctx p.output p.visited p.depth p.trail
    ((ctx.scene.edges_out p.node.id).filter (fun n => chosen.contains n.id))
    { st with is_running := true, stop_requested := false,
              paused_tasks := rest, execution_paused := !rest.isEmpty } rfl rfl hane
  unfold handle_ai_result find_originating
  rw [hp]
  unfold assoc_lookup assoc_erase
  simp only [hrun, hact, hstop, List.head?, Option.map_some', beq_self_eq_true,
    if_true, Bool.not_true, Bool.false_eq_true, if_false, hnext]
  constructor
  · rw [check_and_finish_terminated]
    rw [hfold.1]
  · rw [check_and_finish_oracle_requests]
    rw [hfold.2]

theorem c6_fork_passes_parent_snapshot_witness :
    (handle_ai_result ctx_pair
        { is_running := true,
          paused_tasks := [("A",
            { node := mk_node "A", output := {}, visited := ["A"], depth := 0,
              trail := ["A"] })],
          active_ai_threads := [0] }
        0 ["B", "C"]).terminated
      = [(["A", "B"], Reason.completed), (["A", "C"], Reason.completed)] := by
  have h := c6_fork_passes_parent_snapshot ctx_pair
    { is_running := true,
      paused_tasks := [("A",
        { node := mk_node "A", output := {}, visited := ["A"], depth := 0,
          trail := ["A"] })],
      active_ai_threads := [0] }
    0 ["B", "C"] "A"
    { node := mk_node "A", output := {}, visited := ["A"], depth := 0,
      trail := ["A"] }
    [] rfl rfl (by decide) rfl (by decide)
  exact h.1.trans (by decide)

/-! ### C1 — responses are not matched to the issuing path (code bug) -/

/-- C1 is falsified by the code: the reverse lookup of `_handle_ai_result`
resumes the first-inserted paused task, not the task of the worker that
responded. On the fan-out graph (A forks to B and C; B leads to D, C to E)
with the deterministic oracle choosing D at B and E at C: when worker
completions arrive in creation order the run reaches D and E; but when C's
worker responds before B's, C's chosen id E is applied to B's paused path
(where it matches no outgoing edge) and B's chosen id D is applied to C's
path, so both paths die at depth 1 and the scripts of D and E never run —
the response of one worker is applied to the paused state of a different
path. -/
theorem c1_task_misassociation :
    (run_system ctx_fanout (some (mk_node "A")) ev_creation_order).terminated
      = [(["A", "B", "D"], Reason.completed), (["A", "C", "E"], Reason.completed)] ∧
    (run_system ctx_fanout (some (mk_node "A")) ev_reversed).terminated
      = [(["A", "B"], Reason.completed), (["A", "C"], Reason.completed)] ∧
    (run_system ctx_fanout (some (mk_node "A")) ev_reversed).script_log
      = ["A", "B", "C"] := by decide

/-! ### C7 — after stop() the run can fail to reach the finished state -/

/-- C7's completion guarantee is falsified by the code: on graph A → B,
after the only path pauses awaiting A's decision, `stop_execution` marks
the stop request and cancels the worker (that much of the claim holds, and
no further script or oracle activity occurs: the script log stays at A and
exactly one oracle request was ever issued); but when the cancelled worker
then finishes without emitting a signal, the paused task is never popped,
`execution_paused` stays set, and `_check_and_finish_execution` never
fires — the run keeps `is_running = true` forever even though no AI thread
remains in flight. -/
theorem c7_run_never_finishes_after_stop :
    (run_system ctx_pause (some (mk_node "A")) [.stop, .deliver 0]).is_running
      = true ∧
    (run_system ctx_pause (some (mk_node "A")) [.stop, .deliver 0]).stop_requested
      = true ∧
    (run_system ctx_pause (some (mk_node "A")) [.stop, .deliver 0]).active_ai_threads
      = [] ∧
    ((run_system ctx_pause (some (mk_node "A")) [.stop, .deliver 0]).paused_tasks.map
        (fun q => q.1))
      = ["A"] ∧
    (run_system ctx_pause (some (mk_node "A")) [.stop, .deliver 0]).script_log
      = ["A"] ∧
    (run_system ctx_pause (some (mk_node "A")) [.stop, .deliver 0]).oracle_requests.length
      = 1 := by decide

/-! ### C8 — an oracle failure can terminate a sibling path (code bug) -/

/-- C8 is falsified by the code: `_handle_ai_error` finds the "originating"
task with the same first-paused-task heuristic as `_handle_ai_result`. On
the fan-out graph, when C's oracle call fails while B's succeeds and C's
failure is delivered first, the Error termination is applied to sibling
B's paused path (trail A,B) — whose own oracle call had succeeded — while
the owning path C is later resumed with B's answer D, matches nothing, and
ends Completed; D and E are never executed. The failure thus terminated a
sibling path, not (only) the owning path. -/
theorem c8_oracle_error_misrouted_to_sibling :
    (run_system ctx_fanout_err (some (mk_node "A")) ev_reversed).terminated
      = [(["A", "B"], Reason.error), (["A", "C"], Reason.completed)] ∧
    (run_system ctx_fanout_err (some (mk_node "A")) ev_reversed).script_log
      = ["A", "B", "C"] ∧
    (run_system ctx_fanout_err (some (mk_node "A")) ev_reversed).dialog_errors
      = [("AI Error", "OpenAI API Connection Error: boom")] := by decide

/-! ### C9 — determinism across runs fails under concurrent fan-out -/

/-- C9 is falsified by the code: with the same graph, same start node, same
configuration, the same deterministic oracle and the same deterministic
scripts, two runs that differ only in the order in which the two
outstanding worker threads happen to complete produce different multisets
of (path, terminal reason) pairs, because each response is matched to the
first-inserted paused task rather than to the issuing worker's own task. -/
theorem c9_schedule_dependent_outcome :
    ((run_system ctx_fanout (some (mk_node "A")) ev_creation_order).terminated :
        Multiset (List String × Reason))
      ≠ ((run_system ctx_fanout (some (mk_node "A")) ev_reversed).terminated :
        Multiset (List String × Reason)) := by decide

end Eidos
